import Mathlib

/-!
Shallow embedding of the AbacusKit vision pipeline
(Sources/AbacusVision/src: TensorConverter.cpp, SorobanDetector.cpp,
ImagePreprocessor.cpp, AbacusVision.cpp) together with theorems that check
the natural-language specification's claims against the code.

Modelling conventions:
* a cv::Mat is a byte image: dimensions plus a pixel function;
* float arithmetic is modelled exactly over the rationals;
* C++ int fields are modelled as Int (Nat where the code guarantees
  non-negative values, e.g. image dimensions);
* calls into the image library whose numeric output the claims do not
  constrain (cv::findContours, cv::approxPolyDP, cv::warpPerspective,
  cv::Sobel, cv::resize, the preprocess chain) are supplied as oracle
  parameters, while every filter, loop, index computation and error path
  of the repository code is embedded concretely.
-/

namespace abacus

/-- Byte-image model of a cv::Mat: `pix y x c` is the byte in channel `c`
at row `y`, column `x`. -/
structure Image where
  rows : Nat
  cols : Nat
  channels : Nat
  pix : Nat → Nat → Nat → Nat

/-- cv::Mat::empty(): no rows or no columns. -/
def Image.isEmpty (img : Image) : Bool :=
  img.rows == 0 || img.cols == 0

/-- The default-constructed empty cv::Mat(). -/
def emptyImage : Image :=
  { rows := 0, cols := 0, channels := 0, pix := fun _ _ _ => 0 }

/-- cv::Mat region-of-interest crop `img(cv::Rect(x, y, w, h))`:
a view of size h×w whose pixel (yy, xx) is the parent pixel
(y + yy, x + xx). -/
def cropROI (img : Image) (x y w h : Nat) : Image :=
  { rows := h, cols := w, channels := img.channels,
    pix := fun yy xx c => img.pix (y + yy) (x + xx) c }

/-- PreprocessingConfig (VisionTypes.hpp).  Only the fields read by the
embedded functions are kept: the ImageNet normalization means/stds
(floats, modelled as their exact decimal values) and the tensor output
size (int32_t, positive in the source defaults, modelled as Nat).
The resize / colour / blur / threshold / Hough tuning fields configure
library calls that are abstracted behind oracles and are never read by
the embedded code, so they are omitted. -/
structure PreprocessingConfig where
  meanR : ℚ := 485/1000
  meanG : ℚ := 456/1000
  meanB : ℚ := 406/1000
  stdR : ℚ := 229/1000
  stdG : ℚ := 224/1000
  stdB : ℚ := 225/1000
  cellOutputSize : Nat := 224

/-- The C array `float mean[3] = {meanR, meanG, meanB}` of
TensorConverter::normalize, indexed by channel. -/
def PreprocessingConfig.mean (cfg : PreprocessingConfig) : Nat → ℚ
  | 0 => cfg.meanR
  | 1 => cfg.meanG
  | _ => cfg.meanB

/-- The C array `float std_[3] = {stdR, stdG, stdB}` of
TensorConverter::normalize, indexed by channel. -/
def PreprocessingConfig.std (cfg : PreprocessingConfig) : Nat → ℚ
  | 0 => cfg.stdR
  | 1 => cfg.stdG
  | _ => cfg.stdB

/-- enum class VisionError (VisionTypes.hpp). -/
inductive VisionError where
  | None
  | InvalidInput
  | FrameNotDetected
  | LaneExtractionFailed
  | TensorConversionFailed
  | MemoryAllocationFailed
  | OpenCVError
deriving DecidableEq, Repr

/-- The int32_t value of each VisionError enumerator. -/
def VisionError.toCode : VisionError → Int
  | .None => 0
  | .InvalidInput => 1
  | .FrameNotDetected => 2
  | .LaneExtractionFailed => 3
  | .TensorConversionFailed => 4
  | .MemoryAllocationFailed => 5
  | .OpenCVError => 6

/-- struct CellTensor (VisionTypes.hpp) with its constructor defaults.
The owned float* buffer is an optional total map from flat index to
value; none models the null pointer. -/
structure CellTensor where
  data : Option (Nat → ℚ) := none
  channels : Int := 3
  height : Int := 224
  width : Int := 224

/-- struct BatchTensor (VisionTypes.hpp) with its constructor defaults. -/
structure BatchTensor where
  data : Option (Nat → ℚ) := none
  batchSize : Int := 0
  channels : Int := 3
  height : Int := 224
  width : Int := 224

/-- Oracle for cv::resize: `resizePix img size y x c` is the byte the
library would produce at (y, x, c) when resizing `img` to size×size. -/
structure ResizeOracle where
  resizePix : Image → Nat → Nat → Nat → Nat → Nat

/-- `cv::resize(img, out, cv::Size(size, size))`: the output has the
requested dimensions and the source's channel count (which cv::resize
preserves); its pixels come from the oracle. -/
def resizeImage (o : ResizeOracle) (img : Image) (size : Nat) : Image :=
  { rows := size, cols := size, channels := img.channels,
    pix := o.resizePix img size }

/-- The colour-conversion step of convertCell/convertBatch: BGR2RGB when
the input has 3 channels, GRAY2RGB when it has 1, and none otherwise
(the code's explicit else branch returning InvalidInput). -/
def cvtToRGB (img : Image) : Option Image :=
  if img.channels = 3 then
    some { img with pix := fun y x c => img.pix y x (2 - c) }
  else if img.channels = 1 then
    some { img with channels := 3, pix := fun y x _ => img.pix y x 0 }
  else
    none

/-- TensorConverter::normalize as a value map on the flat output buffer:
the triple loop writes output[c*h*w + y*w + x] =
(input(y,x)[c] / 255 - mean[c]) / std[c], so the value at flat offset
idx is recovered through idx = c*h*w + y*w + x. -/
def normalizeFun (cfg : PreprocessingConfig) (input : Image) (idx : Nat) : ℚ :=
  ((input.pix ((idx % (input.rows * input.cols)) / input.cols)
      (idx % input.cols)
      (idx / (input.rows * input.cols)) : ℚ) / 255 -
    cfg.mean (idx / (input.rows * input.cols))) /
  cfg.std (idx / (input.rows * input.cols))

/-- Overwrite buffer positions [base, base+len) with `vals` taken at the
offset relative to base; other positions keep their previous value. -/
def writeRange (buf : Nat → ℚ) (base len : Nat) (vals : Nat → ℚ) : Nat → ℚ :=
  fun idx => if base ≤ idx ∧ idx < base + len then vals (idx - base) else buf idx

/-- TensorConverter::convertCell (TensorConverter.cpp:13).  An empty cell
is rejected as InvalidInput before the try block.  Inside it, cv::resize
throws on a zero target size and the catch-all turns that into
TensorConversionFailed.  An unsupported channel count returns
InvalidInput before any field of the out-parameter is touched.
Otherwise the shape fields are set, a fresh buffer is allocated
(operator new[] never yields null, so the null check after it cannot
fire; positions outside the written range model uninitialised memory)
and normalize fills all 3*s*s positions. -/
def convertCell (cfg : PreprocessingConfig) (o : ResizeOracle) (cell : Image)
    (tensor : CellTensor) : VisionError × CellTensor :=
  if cell.isEmpty then (.InvalidInput, tensor)
  else if cfg.cellOutputSize = 0 then (.TensorConversionFailed, tensor)
  else
    match cvtToRGB (resizeImage o cell cfg.cellOutputSize) with
    | none => (.InvalidInput, tensor)
    | some rgb =>
      (.None,
        { tensor with
          channels := 3,
          height := (cfg.cellOutputSize : Int),
          width := (cfg.cellOutputSize : Int),
          data := some (writeRange (fun _ => 0)
            0 (3 * cfg.cellOutputSize * cfg.cellOutputSize) (normalizeFun cfg rgb)) })

/-- The per-cell loop of TensorConverter::convertBatch
(TensorConverter.cpp:57).  When cell i fails — cv::resize throwing on an
empty source or zero target size (caught as TensorConversionFailed), or
an unsupported channel count (InvalidInput) — the partially filled
buffer is deleted and the data pointer nulled before returning.
A successful cell writes its normalized values at offset i*cellSize. -/
def convertBatchLoop (cfg : PreprocessingConfig) (o : ResizeOracle)
    (cells : List Image) (i cellSize : Nat) (batch : BatchTensor) :
    VisionError × BatchTensor :=
  match cells with
  | [] => (.None, batch)
  | cell :: rest =>
    if cell.isEmpty ∨ cfg.cellOutputSize = 0 then
      (.TensorConversionFailed, { batch with data := none })
    else
      match cvtToRGB (resizeImage o cell cfg.cellOutputSize) with
      | none => (.InvalidInput, { batch with data := none })
      | some rgb =>
        convertBatchLoop cfg o rest (i + 1) cellSize
          { batch with
            data := some (writeRange (batch.data.getD (fun _ => 0)) (i * cellSize) cellSize
              (normalizeFun cfg rgb)) }

/-- TensorConverter::convertBatch (TensorConverter.cpp:43).  An empty
cell list is rejected as InvalidInput with the out-parameter untouched.
Otherwise the shape fields are set, one buffer of
batchSize*3*s*s floats is allocated, and the loop fills it cell by
cell. -/
def convertBatch (cfg : PreprocessingConfig) (o : ResizeOracle)
    (cells : List Image) (batch : BatchTensor) : VisionError × BatchTensor :=
  if cells.isEmpty then (.InvalidInput, batch)
  else
    let s := cfg.cellOutputSize
    let batch1 : BatchTensor :=
      { batch with
        batchSize := (cells.length : Int), channels := 3,
        height := (s : Int), width := (s : Int),
        data := some (fun _ => 0) }
    convertBatchLoop cfg o cells 0 (3 * s * s) batch1

/-- TensorConverter::freeTensor (TensorConverter.cpp:104): deletes and
nulls the buffer when one is held; no other field is modified. -/
def freeTensor (tensor : CellTensor) : CellTensor :=
  if tensor.data.isSome then { tensor with data := none } else tensor

/-- TensorConverter::freeBatch (TensorConverter.cpp:111): deletes and
nulls the buffer and zeroes batchSize when a buffer is held; the
channels/height/width fields are not modified. -/
def freeBatch (batch : BatchTensor) : BatchTensor :=
  if batch.data.isSome then { batch with data := none, batchSize := 0 } else batch

/-- struct Point (VisionTypes.hpp): a float point, exact rationals here. -/
structure PointQ where
  x : ℚ := 0
  y : ℚ := 0
deriving DecidableEq

/-- struct Rect (VisionTypes.hpp): float fields, exact rationals here. -/
structure RectQ where
  x : ℚ := 0
  y : ℚ := 0
  width : ℚ := 0
  height : ℚ := 0
deriving DecidableEq

/-- struct Quadrilateral (VisionTypes.hpp). -/
structure Quadrilateral where
  topLeft : PointQ := {}
  topRight : PointQ := {}
  bottomRight : PointQ := {}
  bottomLeft : PointQ := {}
deriving DecidableEq

/-- struct FrameDetectionResult (VisionTypes.hpp). -/
structure FrameDetectionResult where
  detected : Bool
  corners : Quadrilateral
  boundingBox : RectQ
  confidence : ℚ
  laneCount : Int

/-- struct LaneInfo (VisionTypes.hpp).  The upperBead/lowerBeads
CellPrediction fields are never written by the vision code (they are
filled by the external classifier) and are omitted. -/
structure LaneInfo where
  boundingBox : RectQ
  digitIndex : Int
  value : Int
  confidence : ℚ

/-- SorobanDetector::DetectionParams (SorobanDetector.hpp) with its
defaults.  laneHeightRatio and the Hough fields only configure library
calls abstracted behind oracles (houghTheta's default is the irrational
pi/180) and are never read by the embedded code, so they are omitted. -/
structure DetectionParams where
  minFrameAreaRatio : ℚ := 5/100
  maxFrameAreaRatio : ℚ := 95/100
  minAspectRatio : ℚ := 3/2
  maxAspectRatio : ℚ := 10
  minLaneCount : Int := 1
  maxLaneCount : Int := 27
  contourApproxEpsilon : ℚ := 2/100
  upperBeadRatio : Int := 1
  lowerBeadRatio : Int := 4
  beadDividerRatio : Int := 1

/-- A contour as cv::findContours / cv::approxPolyDP produce it:
a list of integer pixel points. -/
abbrev Contour := List (Int × Int)

/-- The cross-term sum of the shoelace formula over a closed polygon. -/
def shoelace (c : Contour) : Int :=
  (c.zip (c.rotate 1)).foldl
    (fun acc pq => acc + (pq.1.1 * pq.2.2 - pq.2.1 * pq.1.2)) 0

/-- cv::contourArea (non-oriented): absolute shoelace area. -/
def contourArea (c : Contour) : ℚ :=
  ((shoelace c).natAbs : ℚ) / 2

/-- An integer rectangle as cv::boundingRect returns it. -/
structure IRect where
  x : Int
  y : Int
  width : Int
  height : Int

/-- cv::boundingRect of integer points: the tight axis-aligned box, with
the +1 that OpenCV adds to make the maximal points inclusive. -/
def boundingRect (c : Contour) : IRect :=
  match c with
  | [] => ⟨0, 0, 0, 0⟩
  | p :: ps =>
    let minX := ps.foldl (fun a q => min a q.1) p.1
    let maxX := ps.foldl (fun a q => max a q.1) p.1
    let minY := ps.foldl (fun a q => min a q.2) p.2
    let maxY := ps.foldl (fun a q => max a q.2) p.2
    ⟨minX, minY, maxX - minX + 1, maxY - minY + 1⟩

/-- Oracle for the detector's library calls: contour extraction, polygon
approximation, convexity test, perimeter, the warped pixels of
cv::warpPerspective, and the per-pixel absolute horizontal Sobel
response (cv::Sobel then cv::convertScaleAbs) of the grayscale of a
warped frame. -/
structure DetectorOracle where
  findContours : Image → List Contour
  approxPolyDP : Contour → ℚ → Contour
  isContourConvex : Contour → Bool
  arcLength : Contour → ℚ
  warpPix : Image → Quadrilateral → Nat → Nat → Nat → Nat → Nat → Nat
  absSobelPix : Image → Nat → Nat → Nat

/-- SorobanDetector::findFrameCandidates (SorobanDetector.cpp:74): keep
a contour when its area is inside the configured share of the image
area, its polygon approximation is a convex quadrilateral, and the
bounding-box aspect ratio is inside the configured bounds; the survivor
stored is the approximated polygon. -/
def findFrameCandidates (p : DetectionParams) (o : DetectorOracle)
    (contours : List Contour) (imageArea : ℚ) : List Contour :=
  contours.filterMap (fun contour =>
    let area := contourArea contour
    if area < imageArea * p.minFrameAreaRatio ∨ imageArea * p.maxFrameAreaRatio < area then
      none
    else
      let epsilon := p.contourApproxEpsilon * o.arcLength contour
      let approx := o.approxPolyDP contour epsilon
      if approx.length ≠ 4 ∨ o.isContourConvex approx = false then none
      else
        let rect := boundingRect approx
        let aspect := (rect.width : ℚ) / (rect.height : ℚ)
        if aspect < p.minAspectRatio ∨ p.maxAspectRatio < aspect then none
        else some approx)

/-- The maximum-area selection loop of detectFrame: fold with a strict
comparison starting from area 0 and an empty best contour. -/
def selectMaxArea (candidates : List Contour) : ℚ × Contour :=
  candidates.foldl
    (fun acc contour =>
      let area := contourArea contour
      if acc.1 < area then (area, contour) else acc)
    (0, [])

/-- SorobanDetector::orderCorners (SorobanDetector.cpp:114): partition
the four points into quadrants around the centroid (the else-if chain
makes the four conditions mutually exclusive and exhaustive); the first
point of each quadrant is taken, and an empty quadrant falls back to a
default corner. -/
def orderCorners (contour : Contour) : Quadrilateral :=
  if contour.length ≠ 4 then {}
  else
    let cx : ℚ := ((contour.foldl (fun a q => a + q.1) 0 : Int) : ℚ) / 4
    let cy : ℚ := ((contour.foldl (fun a q => a + q.2) 0 : Int) : ℚ) / 4
    let pick : List (Int × Int) → ℚ → ℚ → PointQ := fun pts dx dy =>
      match pts with
      | [] => ⟨dx, dy⟩
      | q :: _ => ⟨(q.1 : ℚ), (q.2 : ℚ)⟩
    { topLeft := pick (contour.filter fun q => (q.1 : ℚ) < cx ∧ (q.2 : ℚ) < cy) 0 0,
      topRight := pick (contour.filter fun q => cx ≤ (q.1 : ℚ) ∧ (q.2 : ℚ) < cy) 100 0,
      bottomRight := pick (contour.filter fun q => cx ≤ (q.1 : ℚ) ∧ cy ≤ (q.2 : ℚ)) 100 100,
      bottomLeft := pick (contour.filter fun q => (q.1 : ℚ) < cx ∧ cy ≤ (q.2 : ℚ)) 0 100 }

/-- The result a fresh FrameDetectionResult receives at the top of
detectFrame: not detected, zero confidence, zero lane count.  In C++
corners/boundingBox are uninitialised on the early-return paths; the
claims never read them there, so zeroes stand in. -/
def frameResultBase : FrameDetectionResult :=
  { detected := false, corners := {}, boundingBox := {}, confidence := 0, laneCount := 0 }

/-- SorobanDetector::detectFrame (SorobanDetector.cpp:15). -/
def detectFrame (p : DetectionParams) (o : DetectorOracle)
    (preprocessed binary edges : Image) : FrameDetectionResult :=
  if binary.isEmpty then frameResultBase
  else
    let imageArea : ℚ := ((binary.cols * binary.rows : Nat) : ℚ)
    let candidates := findFrameCandidates p o (o.findContours binary) imageArea
    if candidates.isEmpty then frameResultBase
    else
      let best := selectMaxArea candidates
      if best.2.isEmpty then frameResultBase
      else
        let rect := boundingRect best.2
        let areaRatio := best.1 / imageArea
        let aspectRatio := (rect.width : ℚ) / (rect.height : ℚ)
        { detected := true,
          corners := orderCorners best.2,
          boundingBox :=
            ⟨(rect.x : ℚ), (rect.y : ℚ), (rect.width : ℚ), (rect.height : ℚ)⟩,
          confidence :=
            if p.minAspectRatio ≤ aspectRatio ∧ aspectRatio ≤ p.maxAspectRatio then
              min 1 (areaRatio * 5)
            else
              areaRatio * (1/2),
          laneCount := 0 }

/-- SorobanDetector::warpFrame (SorobanDetector.cpp:148): empty unless a
frame was detected and the source is non-empty; otherwise an image of
the requested output size whose pixels come from the warp oracle
(cv::warpPerspective preserves the channel count). -/
def warpFrame (o : DetectorOracle) (original : Image) (frame : FrameDetectionResult)
    (outputWidth outputHeight : Nat) : Image :=
  if frame.detected = false ∨ original.isEmpty then emptyImage
  else
    { rows := outputHeight, cols := outputWidth, channels := original.channels,
      pix := o.warpPix original frame.corners outputWidth outputHeight }

/-- The column projection of detectLaneCount: the sum over rows of the
absolute Sobel response in column x (the grayscale of the warped frame
has the warped frame's dimensions). -/
def projectionOf (o : DetectorOracle) (warped : Image) (x : Nat) : Nat :=
  ∑ y ∈ Finset.range warped.rows, o.absSobelPix warped y x

/-- The inner window scan of detectLaneCount: column i is a local
maximum when every other column j in [i-windowSize, i+windowSize] has a
strictly smaller projection. -/
def isLocalMax (proj : Nat → Nat) (windowSize i : Nat) : Bool :=
  (List.range' (i - windowSize) (2 * windowSize + 1)).all
    (fun j => j == i || decide (proj j < proj i))

/-- SorobanDetector::detectLaneCount (SorobanDetector.cpp:179): 0 for an
empty frame; otherwise count strict local maxima of the gradient
projection that exceed a third of the global maximum, subtract one, and
clamp into [minLaneCount, maxLaneCount]. -/
def detectLaneCount (p : DetectionParams) (o : DetectorOracle) (warped : Image) : Int :=
  if warped.isEmpty then 0
  else
    let proj := projectionOf o warped
    let windowSize := warped.cols / 50
    let maxProj := ((List.range warped.cols).map proj).foldl max 0
    let threshold := maxProj / 3
    let peaks := (List.range' windowSize (warped.cols - windowSize - windowSize)).filter
      (fun i => isLocalMax proj windowSize i && decide (threshold < proj i))
    max p.minLaneCount (min p.maxLaneCount ((peaks.length : Int) - 1))

/-- SorobanDetector::extractLanes (SorobanDetector.cpp:224): strip i of
width cols/laneCount (integer division) starting at i*laneWidth, full
height, digitIndex laneCount-1-i, value and confidence zero. -/
def extractLanes (warped : Image) (laneCount : Int) : List LaneInfo :=
  if warped.isEmpty ∨ laneCount ≤ 0 then []
  else
    let n := laneCount.toNat
    let laneWidth := warped.cols / n
    (List.range n).map (fun i =>
      { digitIndex := laneCount - 1 - (i : Int),
        boundingBox :=
          ⟨((i * laneWidth : Nat) : ℚ), 0, ((laneWidth : Nat) : ℚ), ((warped.rows : Nat) : ℚ)⟩,
        value := 0,
        confidence := 0 })

/-- SorobanDetector::extractCells (SorobanDetector.cpp:247): split the
lane height by the integer ratios upper:divider:lower (C++ int division
truncates toward zero, Int.tdiv), keep the upper band, drop the divider,
and split the lower band into 4 equal sub-heights; always 1 + 4 crops
for a non-empty lane.  For non-negative ratios the crops stay inside the
lane, so cv::Mat's range check cannot throw; a zero ratio sum would
divide by zero in C++ (undefined behaviour), which theorems exclude by
hypothesis where the heights matter. -/
def extractCells (p : DetectionParams) (lane : Image) : List Image :=
  if lane.isEmpty then []
  else
    let totalRatio := p.upperBeadRatio + p.beadDividerRatio + p.lowerBeadRatio
    let upperHeight := Int.tdiv ((lane.rows : Int) * p.upperBeadRatio) totalRatio
    let dividerHeight := Int.tdiv ((lane.rows : Int) * p.beadDividerRatio) totalRatio
    let lowerHeight := Int.tdiv ((lane.rows : Int) * p.lowerBeadRatio) totalRatio
    let upperCell := cropROI lane 0 0 lane.cols upperHeight.toNat
    let lowerStart := upperHeight + dividerHeight
    let singleLowerHeight := Int.tdiv lowerHeight 4
    upperCell ::
      (List.range 4).map (fun i =>
        cropROI lane 0 (lowerStart + (i : Int) * singleLowerHeight).toNat lane.cols
          singleLowerHeight.toNat)

/-- The CoreVideo pixel formats the claims mention, plus a stand-in for
every other OSType. -/
inductive PixelFormat where
  | bgra32
  | rgba32
  | rgb24
  | other
deriving DecidableEq

/-- A CVPixelBuffer: dimensions, format, and the base address (none
models a buffer whose pixel data is missing).  `bytes y x k` is byte k
of the pixel at (y, x) in the buffer's own channel order. -/
structure PixelBuffer where
  width : Nat
  height : Nat
  format : PixelFormat
  baseAddress : Option (Nat → Nat → Nat → Nat)

/-- ImagePreprocessor::convertFromPixelBuffer (ImagePreprocessor.cpp:32):
InvalidInput for a null buffer, a null base address, or any format other
than 32BGRA / 32RGBA; otherwise a 3-channel BGR image (alpha dropped;
RGBA source channels are reversed into BGR order). -/
def convertFromPixelBuffer : Option PixelBuffer → Except VisionError Image
  | none => .error .InvalidInput
  | some buf =>
    match buf.baseAddress with
    | none => .error .InvalidInput
    | some bytes =>
      match buf.format with
      | .bgra32 =>
        .ok { rows := buf.height, cols := buf.width, channels := 3,
              pix := fun y x c => bytes y x c }
      | .rgba32 =>
        .ok { rows := buf.height, cols := buf.width, channels := 3,
              pix := fun y x c => bytes y x (2 - c) }
      | _ => .error .InvalidInput

/-- struct ExtractionResult (VisionTypes.hpp) as its constructor leaves
it: success false, no lanes, default tensor, zero cells.  In C++ the
frame member is uninitialised until assigned; the claims never read it
before assignment, so the detectFrame base result stands in.  The
wall-clock field preprocessingTimeMs is not modelled. -/
structure ExtractionResult where
  success : Bool := false
  frame : FrameDetectionResult := frameResultBase
  lanes : List LaneInfo := []
  tensor : BatchTensor := {}
  totalCells : Int := 0

/-- C++ float-to-int conversion (truncation toward zero) for the exact
rationals standing in for floats. -/
def cppTrunc (q : ℚ) : Int :=
  Int.tdiv q.num (q.den : Int)

/-- The oracle bundle of the orchestrator: the preprocess chain (none
models a non-None VisionError from ImagePreprocessor::preprocess, some
gives the (preprocessed, binary, edges) triple), the detector's library
calls, and cv::resize for the tensor converter. -/
structure VisionOracle where
  preprocess : Image → Option (Image × Image × Image)
  det : DetectorOracle
  rsz : ResizeOracle

/-- The per-lane loop of AbacusVision::processInternal
(AbacusVision.cpp:87): crop each lane's strip from the warped image via
the int casts of its float bounding box and append its 5 cells. -/
def gatherCells (p : DetectionParams) (warped : Image) : List LaneInfo → List Image
  | [] => []
  | lane :: rest =>
    extractCells p (cropROI warped
      (cppTrunc lane.boundingBox.x).toNat (cppTrunc lane.boundingBox.y).toNat
      (cppTrunc lane.boundingBox.width).toNat (cppTrunc lane.boundingBox.height).toNat) ++
    gatherCells p warped rest

/-- The tail of AbacusVision::processInternal (AbacusVision.cpp:101):
record the cell count; when cells were gathered, batch-convert them into
the result's tensor and fail without success on a conversion error;
otherwise (and after a successful conversion) mark success. -/
def finishBatch (cfg : PreprocessingConfig) (rsz : ResizeOracle)
    (allCells : List Image) (r3 : ExtractionResult) : ExtractionResult :=
  if allCells.isEmpty then { r3 with success := true }
  else
    match convertBatch cfg rsz allCells r3.tensor with
    | (.None, batch) => { r3 with tensor := batch, success := true }
    | (_, batch) => { r3 with tensor := batch }

/-- The lane stage of AbacusVision::processInternal (AbacusVision.cpp:84):
split the warped frame into lanes, gather the 5 cells of every lane in
order, and hand the flat cell list to the batch converter.  frame2
already carries the detected lane count. -/
def processLanes (cfg : PreprocessingConfig) (p : DetectionParams) (o : VisionOracle)
    (frame2 : FrameDetectionResult) (warped : Image) (laneCount : Int) :
    ExtractionResult :=
  finishBatch cfg o.rsz (gatherCells p warped (extractLanes warped laneCount))
    { frame := frame2, lanes := extractLanes warped laneCount,
      totalCells := ((gatherCells p warped (extractLanes warped laneCount)).length : Int) }

/-- The lane-count stage of AbacusVision::processInternal
(AbacusVision.cpp:80): detect the lane count on the warped frame, store
it in the frame result, and stop without success when it is not
positive. -/
def processAfterWarp (cfg : PreprocessingConfig) (p : DetectionParams) (o : VisionOracle)
    (frame : FrameDetectionResult) (warped : Image) : ExtractionResult :=
  if detectLaneCount p o.det warped ≤ 0 then
    { frame := { frame with laneCount := detectLaneCount p o.det warped } }
  else
    processLanes cfg p o { frame with laneCount := detectLaneCount p o.det warped }
      warped (detectLaneCount p o.det warped)

/-- The rectification stage of AbacusVision::processInternal
(AbacusVision.cpp:77): warp the preprocessed image to 800x200 and stop
without success when the warp is empty. -/
def processAfterDetect (cfg : PreprocessingConfig) (p : DetectionParams) (o : VisionOracle)
    (preprocessed : Image) (frame : FrameDetectionResult) : ExtractionResult :=
  if (warpFrame o.det preprocessed frame 800 200).isEmpty then { frame := frame }
  else processAfterWarp cfg p o frame (warpFrame o.det preprocessed frame 800 200)

/-- The detection stage of AbacusVision::processInternal
(AbacusVision.cpp:71): detect the frame, record it in the result, and
stop without success when no frame was detected. -/
def processAfterPreprocess (cfg : PreprocessingConfig) (p : DetectionParams)
    (o : VisionOracle) (preprocessed binary edges : Image) : ExtractionResult :=
  if (detectFrame p o.det preprocessed binary edges).detected = false then
    { frame := detectFrame p o.det preprocessed binary edges }
  else
    processAfterDetect cfg p o preprocessed (detectFrame p o.det preprocessed binary edges)

/-- AbacusVision::processInternal (AbacusVision.cpp:60), assembled from
its stages: empty-input check, preprocess, detect, warp, lane count,
lane/cell extraction, batch conversion. -/
def processInternal (cfg : PreprocessingConfig) (p : DetectionParams)
    (o : VisionOracle) (image : Image) : ExtractionResult :=
  if image.isEmpty then {}
  else
    match o.preprocess image with
    | none => {}
    | some (preprocessed, binary, edges) =>
      processAfterPreprocess cfg p o preprocessed binary edges

/-- AbacusVision::processPixelBuffer (AbacusVision.cpp:32): convert the
platform buffer; on failure a fresh result with success false, else the
full pipeline (the timing stamp is not modelled). -/
def processPixelBuffer (cfg : PreprocessingConfig) (p : DetectionParams)
    (o : VisionOracle) (pb : Option PixelBuffer) : ExtractionResult :=
  match convertFromPixelBuffer pb with
  | .error _ => {}
  | .ok image => processInternal cfg p o image

/-- The boundary entry point abacus_vision_process (AbacusVision.cpp:153).
The three pointer arguments are modelled by whether they are non-null;
a null among them returns InvalidInput, otherwise the pipeline result's
success flag picks None or FrameNotDetected. -/
def abacus_vision_process (cfg : PreprocessingConfig) (p : DetectionParams)
    (o : VisionOracle) (instanceNonNull : Bool) (pb : Option PixelBuffer)
    (resultNonNull : Bool) : Int :=
  if instanceNonNull = false ∨ pb.isNone ∨ resultNonNull = false then
    VisionError.InvalidInput.toCode
  else if (processPixelBuffer cfg p o pb).success then
    VisionError.None.toCode
  else
    VisionError.FrameNotDetected.toCode

/-! Concrete instances used by witnesses and counterexamples. -/

/-- A detector oracle for concrete runs: contour extraction always
reports one fixed contour, polygon approximation is the identity,
convexity holds, and the warped / Sobel pixels are constants. -/
def demoContour : Contour := [(0, 0), (99, 0), (99, 9), (0, 9)]

/-- A 100x20 all-white binary mask. -/
def demoBinary : Image :=
  { rows := 20, cols := 100, channels := 1, pix := fun _ _ _ => 255 }

/-- Concrete detector oracle built around demoContour. -/
def demoDetOracle : DetectorOracle :=
  { findContours := fun _ => [demoContour],
    approxPolyDP := fun c _ => c,
    isContourConvex := fun _ => true,
    arcLength := fun _ => 0,
    warpPix := fun _ _ _ _ _ _ _ => 128,
    absSobelPix := fun _ _ _ => 0 }

/-- A nearest-neighbour resize oracle; on a uniform image every
interpolation scheme (including cv::resize's bilinear default) produces
the same uniform output, so this choice is immaterial there. -/
def nearestResize : ResizeOracle :=
  { resizePix := fun img s y x c => img.pix (y * img.rows / s) (x * img.cols / s) c }

/-- A uniform mid-gray 50x50 3-channel cell (byte value 128, the byte
closest to half intensity from above). -/
def grayCell : Image :=
  { rows := 50, cols := 50, channels := 3, pix := fun _ _ _ => 128 }

/-- A cell with an unsupported channel count (neither 1 nor 3). -/
def badCell : Image :=
  { rows := 8, cols := 8, channels := 2, pix := fun _ _ _ => 1 }

/-- A small non-empty grayscale image. -/
def smallGray : Image :=
  { rows := 5, cols := 5, channels := 1, pix := fun _ _ _ => 7 }

/-- A cell tensor currently holding a buffer, with default shape. -/
def demoCellTensor : CellTensor :=
  { data := some (fun _ => 0) }

/-- A batch tensor currently holding a buffer for five cells. -/
def demoBatchTensor : BatchTensor :=
  { data := some (fun _ => 0), batchSize := 5 }

/-! Claim C8. -/

/-- C8: convertBatch on an empty cell list returns InvalidInput and
leaves the out-parameter untouched, so a fresh BatchTensor's data
pointer is still null on that path. -/
theorem convertBatch_empty_invalid (cfg : PreprocessingConfig) (o : ResizeOracle)
    (batch : BatchTensor) :
    (convertBatch cfg o [] batch).1 = VisionError.InvalidInput ∧
    (convertBatch cfg o [] batch).2 = batch ∧
    (convertBatch cfg o [] ({} : BatchTensor)).2.data = none :=
  ⟨rfl, rfl, rfl⟩

/-! Claim C9. -/

/-- C9 counterexample: freeTensor nulls the buffer but does not zero the
size fields, contradicting the claim that both free functions zero the
size fields: a released default-shaped cell tensor still reports
channels 3, height 224, width 224, and a released batch tensor still
reports height 224. -/
theorem freeTensor_leaves_size_fields :
    (freeTensor demoCellTensor).data = none ∧
    (freeTensor demoCellTensor).channels = 3 ∧
    (freeTensor demoCellTensor).height = 224 ∧
    (freeTensor demoCellTensor).width = 224 ∧
    (freeBatch demoBatchTensor).height = 224 ∧
    ¬((freeTensor demoCellTensor).channels = 0 ∧
      (freeTensor demoCellTensor).height = 0 ∧
      (freeTensor demoCellTensor).width = 0) := by
  refine ⟨rfl, rfl, rfl, rfl, rfl, ?_⟩
  intro h
  exact absurd h.1 (by decide)

/-- C9 (amended): freeTensor releases the buffer (data is null
afterwards) and leaves channels/height/width unchanged; freeBatch
releases the buffer and zeroes only batchSize; both are idempotent, so
a second call in succession is a no-op. -/
theorem freeTensor_freeBatch_release_idempotent (t : CellTensor) (b : BatchTensor) :
    (freeTensor t).data = none ∧
    freeTensor (freeTensor t) = freeTensor t ∧
    (freeTensor t).channels = t.channels ∧
    (freeTensor t).height = t.height ∧
    (freeTensor t).width = t.width ∧
    (freeBatch b).data = none ∧
    (∀ f : Nat → ℚ, (freeBatch { b with data := some f }).batchSize = 0) ∧
    (freeBatch b).channels = b.channels ∧
    (freeBatch b).height = b.height ∧
    (freeBatch b).width = b.width ∧
    freeBatch (freeBatch b) = freeBatch b := by
  cases ht : t.data <;> cases hb : b.data <;>
    simp [freeTensor, freeBatch, ht, hb]

/-! Claim C3. -/

/-- C3 counterexample: on an empty input image detectLaneCount returns 0,
which lies below the default minLaneCount of 1, so the claimed bound
does not hold for every input image including an empty one. -/
theorem detectLaneCount_empty_below_min :
    detectLaneCount {} demoDetOracle emptyImage = 0 ∧
    ({} : DetectionParams).minLaneCount = 1 ∧
    ¬((1 : Int) ≤ 0) :=
  ⟨rfl, rfl, by decide⟩

/-- C3 (amended): for every non-empty input image and every parameter
setting whose clamp interval is non-empty (minLaneCount ≤ maxLaneCount),
the value returned by detectLaneCount lies within
[minLaneCount, maxLaneCount] regardless of the raw peak count; an empty
image instead returns 0. -/
theorem detectLaneCount_clamped (p : DetectionParams) (o : DetectorOracle)
    (warped : Image) (hne : warped.isEmpty = false)
    (hmm : p.minLaneCount ≤ p.maxLaneCount) :
    p.minLaneCount ≤ detectLaneCount p o warped ∧
    detectLaneCount p o warped ≤ p.maxLaneCount := by
  simp only [detectLaneCount, hne, Bool.false_eq_true, if_false]
  exact ⟨le_max_left _ _, max_le hmm (min_le_left _ _)⟩

/-- C3 witness: the amended bound instantiated at a concrete non-empty
5x5 image with default parameters. -/
theorem detectLaneCount_clamped_witness :
    (smallGray.isEmpty = false ∧
      ({} : DetectionParams).minLaneCount ≤ ({} : DetectionParams).maxLaneCount) ∧
    (({} : DetectionParams).minLaneCount ≤ detectLaneCount {} demoDetOracle smallGray ∧
      detectLaneCount {} demoDetOracle smallGray ≤ ({} : DetectionParams).maxLaneCount) :=
  ⟨⟨rfl, by decide⟩, detectLaneCount_clamped {} demoDetOracle smallGray rfl (by decide)⟩

/-! Claim C5. -/

/-- A 10-column, 4-row image whose width the three lane strips of
extractLanes cannot cover. -/
def laneDemoImage : Image :=
  { rows := 4, cols := 10, channels := 3, pix := fun _ _ _ => 0 }

/-- Helper: length of extractLanes on the non-degenerate path. -/
theorem extractLanes_length (warped : Image) (laneCount : Int)
    (hne : warped.isEmpty = false) (hpos : 0 < laneCount) :
    (extractLanes warped laneCount).length = laneCount.toNat := by
  simp [extractLanes, hne, not_le.mpr hpos]

/-- C5 counterexample: on a 10-wide image with laneCount 3 the three
strips each have width 10/3 = 3 and together span 9 of the 10 columns,
so the bounding boxes do not partition the image width (a partition
would make the widths sum to the full width). -/
theorem extractLanes_strips_do_not_cover :
    ((extractLanes laneDemoImage 3).map (fun lane => lane.boundingBox.width)).sum = 9 ∧
    laneDemoImage.cols = 10 ∧
    (9 : ℚ) ≠ 10 := by
  refine ⟨?_, rfl, by norm_num⟩
  norm_num [extractLanes, Image.isEmpty, laneDemoImage,
    show Int.toNat 3 = 3 from rfl, show (List.range 3) = [0, 1, 2] from rfl]

/-- C5 (amended): for every non-empty rectified image and every
laneCount > 0, extractLanes returns exactly laneCount lanes; strip i is
the vertical band of width `cols / laneCount` (integer division, so the
remainder `cols mod laneCount` at the right edge is not covered)
starting at `i * (cols / laneCount)` with full image height;
`digitIndex = laneCount - 1 - i` (rightmost strip is digit 0, the least
significant digit), and value and confidence default to 0. -/
theorem extractLanes_strips (warped : Image) (laneCount : Int)
    (hne : warped.isEmpty = false) (hpos : 0 < laneCount) :
    (extractLanes warped laneCount).length = laneCount.toNat ∧
    ∀ i (h : i < (extractLanes warped laneCount).length),
      ((extractLanes warped laneCount).get ⟨i, h⟩).digitIndex = laneCount - 1 - (i : Int) ∧
      ((extractLanes warped laneCount).get ⟨i, h⟩).boundingBox =
        ⟨((i * (warped.cols / laneCount.toNat) : Nat) : ℚ), 0,
          ((warped.cols / laneCount.toNat : Nat) : ℚ), ((warped.rows : Nat) : ℚ)⟩ ∧
      ((extractLanes warped laneCount).get ⟨i, h⟩).value = 0 ∧
      ((extractLanes warped laneCount).get ⟨i, h⟩).confidence = 0 := by
  refine ⟨extractLanes_length warped laneCount hne hpos, ?_⟩
  intro i h
  have hi : i < laneCount.toNat := by
    simpa [extractLanes_length warped laneCount hne hpos] using h
  simp [extractLanes, hne, not_le.mpr hpos, List.get_eq_getElem]

/-- C5 witness: the amended statement instantiated on the concrete
10x4 image with laneCount 3. -/
theorem extractLanes_strips_witness :
    (laneDemoImage.isEmpty = false ∧ (0 : Int) < 3) ∧
    ((extractLanes laneDemoImage 3).length = (3 : Int).toNat ∧
      ∀ i (h : i < (extractLanes laneDemoImage 3).length),
        ((extractLanes laneDemoImage 3).get ⟨i, h⟩).digitIndex = 3 - 1 - (i : Int) ∧
        ((extractLanes laneDemoImage 3).get ⟨i, h⟩).boundingBox =
          ⟨((i * (laneDemoImage.cols / (3 : Int).toNat) : Nat) : ℚ), 0,
            ((laneDemoImage.cols / (3 : Int).toNat : Nat) : ℚ),
            ((laneDemoImage.rows : Nat) : ℚ)⟩ ∧
        ((extractLanes laneDemoImage 3).get ⟨i, h⟩).value = 0 ∧
        ((extractLanes laneDemoImage 3).get ⟨i, h⟩).confidence = 0) :=
  ⟨⟨rfl, by decide⟩, extractLanes_strips laneDemoImage 3 rfl (by decide)⟩

/-! Claim C7. -/

/-- A well-formed 24-bit RGB pixel buffer with pixel data present. -/
def demoRGB24 : PixelBuffer :=
  { width := 4, height := 2, format := .rgb24, baseAddress := some (fun _ _ _ => 9) }

/-- A well-formed 32-bit BGRA pixel buffer with pixel data present. -/
def demoBGRA : PixelBuffer :=
  { width := 4, height := 2, format := .bgra32, baseAddress := some (fun _ _ k => 10 + k) }

/-- C7 counterexample: a non-null 24-bit RGB buffer whose pixel data is
present is rejected with InvalidInput, although the claim says the
24-bit RGB layout is accepted (that layout is only handled by the
out-of-scope TorchModule bridge, not by
ImagePreprocessor::convertFromPixelBuffer). -/
theorem convertFromPixelBuffer_rejects_rgb24 :
    demoRGB24.format = .rgb24 ∧
    demoRGB24.baseAddress.isSome = true ∧
    convertFromPixelBuffer (some demoRGB24) = .error .InvalidInput :=
  ⟨rfl, rfl, rfl⟩

/-- C7 (amended): convertFromPixelBuffer accepts exactly the 32-bit BGRA
and 32-bit RGBA layouts (dropping the alpha channel) and fails with
InvalidInput exactly for a null buffer, missing pixel data, or any
other layout — including 24-bit RGB, which is not supported here. -/
theorem convertFromPixelBuffer_cases (pb : Option PixelBuffer) :
    (convertFromPixelBuffer pb = .error .InvalidInput ↔
      pb = none ∨ ∃ buf, pb = some buf ∧
        (buf.baseAddress = none ∨
          (buf.format ≠ .bgra32 ∧ buf.format ≠ .rgba32))) ∧
    (∀ e, convertFromPixelBuffer pb = .error e → e = .InvalidInput) ∧
    (∀ buf bytes, buf.baseAddress = some bytes →
      buf.format = .bgra32 ∨ buf.format = .rgba32 →
      ∃ img, convertFromPixelBuffer (some buf) = .ok img ∧
        img.channels = 3 ∧ img.rows = buf.height ∧ img.cols = buf.width) := by
  refine ⟨?_, ?_, ?_⟩
  · rcases pb with _ | buf
    · simp [convertFromPixelBuffer]
    · rcases hba : buf.baseAddress with _ | bytes <;>
        rcases hfmt : buf.format <;>
        simp [convertFromPixelBuffer, hba, hfmt]
  · rcases pb with _ | buf
    · simp [convertFromPixelBuffer]
    · rcases hba : buf.baseAddress with _ | bytes <;>
        rcases hfmt : buf.format <;>
        simp [convertFromPixelBuffer, hba, hfmt]
  · intro buf bytes hba hf
    rcases hf with h | h
    · exact ⟨Image.mk buf.height buf.width 3 (fun y x c => bytes y x c),
        by simp [convertFromPixelBuffer, hba, h], rfl, rfl, rfl⟩
    · exact ⟨Image.mk buf.height buf.width 3 (fun y x c => bytes y x (2 - c)),
        by simp [convertFromPixelBuffer, hba, h], rfl, rfl, rfl⟩

/-- C7 witness: the characterization instantiated at a concrete BGRA
buffer with data present. -/
theorem convertFromPixelBuffer_cases_witness :
    (convertFromPixelBuffer (some demoBGRA) = .error .InvalidInput ↔
      some demoBGRA = none ∨ ∃ buf, some demoBGRA = some buf ∧
        (buf.baseAddress = none ∨
          (buf.format ≠ .bgra32 ∧ buf.format ≠ .rgba32))) ∧
    (∀ e, convertFromPixelBuffer (some demoBGRA) = .error e → e = .InvalidInput) ∧
    (∀ buf bytes, buf.baseAddress = some bytes →
      buf.format = .bgra32 ∨ buf.format = .rgba32 →
      ∃ img, convertFromPixelBuffer (some buf) = .ok img ∧
        img.channels = 3 ∧ img.rows = buf.height ∧ img.cols = buf.width) :=
  convertFromPixelBuffer_cases (some demoBGRA)

/-! Claim C10. -/

/-- C10: the boundary entry point returns only codes 0, 1 or 2; code 1
(InvalidInput) exactly when the instance handle, pixel buffer, or result
pointer is null; code 0 (None) exactly when all three are non-null and
the produced ExtractionResult has success true; hence code 2
(FrameNotDetected) for every other failure, and codes 3-6 are never
returned from this entry point. -/
theorem abacus_vision_process_codes (cfg : PreprocessingConfig)
    (p : DetectionParams) (o : VisionOracle) (inst : Bool)
    (pb : Option PixelBuffer) (res : Bool) :
    (abacus_vision_process cfg p o inst pb res = 0 ∨
      abacus_vision_process cfg p o inst pb res = 1 ∨
      abacus_vision_process cfg p o inst pb res = 2) ∧
    (abacus_vision_process cfg p o inst pb res = 1 ↔
      (inst = false ∨ pb = none ∨ res = false)) ∧
    (abacus_vision_process cfg p o inst pb res = 0 ↔
      (inst = true ∧ pb ≠ none ∧ res = true ∧
        (processPixelBuffer cfg p o pb).success = true)) := by
  cases inst <;> cases res <;> rcases pb with _ | buf <;>
    simp [abacus_vision_process, VisionError.toCode] <;>
    cases h : (processPixelBuffer cfg p o (some buf)).success <;>
    simp [h]

/-! Claim C2. -/

/-- The candidate list detectFrame derives from the binary mask: contours
from the library, filtered by findFrameCandidates over the image area. -/
def candidatesOf (p : DetectionParams) (o : DetectorOracle) (binary : Image) :
    List Contour :=
  findFrameCandidates p o (o.findContours binary) ((binary.cols * binary.rows : Nat) : ℚ)

/-- The maximum-area survivor (area, contour) pair for a binary mask. -/
def bestOf (p : DetectionParams) (o : DetectorOracle) (binary : Image) : ℚ × Contour :=
  selectMaxArea (candidatesOf p o binary)

/-- The bounding-box aspect ratio (width over height) of a contour. -/
def aspectOf (c : Contour) : ℚ :=
  ((boundingRect c).width : ℚ) / ((boundingRect c).height : ℚ)

/-- Helper: on a non-empty binary mask, detectFrame is the candidate
filter followed by max-area selection and the confidence formula. -/
theorem detectFrame_nonempty_eq (p : DetectionParams) (o : DetectorOracle)
    (preprocessed binary edges : Image) (hbe : binary.isEmpty = false) :
    detectFrame p o preprocessed binary edges =
      (if (candidatesOf p o binary).isEmpty then frameResultBase
       else if (bestOf p o binary).2.isEmpty then frameResultBase
       else
        { detected := true,
          corners := orderCorners (bestOf p o binary).2,
          boundingBox := ⟨((boundingRect (bestOf p o binary).2).x : ℚ),
            ((boundingRect (bestOf p o binary).2).y : ℚ),
            ((boundingRect (bestOf p o binary).2).width : ℚ),
            ((boundingRect (bestOf p o binary).2).height : ℚ)⟩,
          confidence :=
            if p.minAspectRatio ≤ aspectOf (bestOf p o binary).2 ∧
                aspectOf (bestOf p o binary).2 ≤ p.maxAspectRatio then
              min 1 ((bestOf p o binary).1 / ((binary.cols * binary.rows : Nat) : ℚ) * 5)
            else
              (bestOf p o binary).1 / ((binary.cols * binary.rows : Nat) : ℚ) * (1/2),
          laneCount := 0 }) := by
  unfold detectFrame
  rw [if_neg (by rw [hbe]; exact Bool.false_ne_true)]
  rfl

/-- C2: when a maximum-area surviving quadrilateral is selected (the
fold yields a non-empty best contour), detectFrame still reports
detected true and its confidence is min(1, areaRatio*5) when the
best contour's bounding-box aspect ratio is within
[minAspectRatio, maxAspectRatio] and areaRatio*0.5 otherwise; when no
candidate survives the filters, the result has detected false and
confidence 0. -/
theorem detectFrame_confidence (p : DetectionParams) (o : DetectorOracle)
    (preprocessed binary edges : Image) :
    (candidatesOf p o binary = [] →
      (detectFrame p o preprocessed binary edges).detected = false ∧
      (detectFrame p o preprocessed binary edges).confidence = 0) ∧
    (binary.isEmpty = false →
      (bestOf p o binary).2 ≠ [] →
      (detectFrame p o preprocessed binary edges).detected = true ∧
      (detectFrame p o preprocessed binary edges).confidence =
        (if p.minAspectRatio ≤ aspectOf (bestOf p o binary).2 ∧
            aspectOf (bestOf p o binary).2 ≤ p.maxAspectRatio then
          min 1 ((bestOf p o binary).1 / ((binary.cols * binary.rows : Nat) : ℚ) * 5)
        else
          (bestOf p o binary).1 / ((binary.cols * binary.rows : Nat) : ℚ) * (1/2))) := by
  constructor
  · intro hcand
    cases hbe : binary.isEmpty with
    | true =>
      have hd : detectFrame p o preprocessed binary edges = frameResultBase := by
        unfold detectFrame
        rw [if_pos hbe]
      rw [hd]
      exact ⟨rfl, rfl⟩
    | false =>
      have hd := detectFrame_nonempty_eq p o preprocessed binary edges hbe
      rw [hcand] at hd
      simp only [List.isEmpty_nil, if_true] at hd
      rw [hd]
      exact ⟨rfl, rfl⟩
  · intro hbe hsel
    have hd := detectFrame_nonempty_eq p o preprocessed binary edges hbe
    have hc : (candidatesOf p o binary).isEmpty = false := by
      rcases hce : candidatesOf p o binary with _ | ⟨c, cs⟩
      · exfalso
        apply hsel
        rw [bestOf, hce]
        rfl
      · rfl
    have hb : (bestOf p o binary).2.isEmpty = false := by
      rcases hb2 : (bestOf p o binary).2 with _ | ⟨c, cs⟩
      · exact absurd hb2 hsel
      · rfl
    rw [hd]
    simp only [hc, hb, Bool.false_eq_true, if_false]
    refine ⟨?_, ?_⟩ <;> trivial

/-- Helper: the fixed demo contour's shoelace cross sum. -/
theorem shoelace_demo : shoelace demoContour = 1782 := by decide

/-- Helper: area of the demo contour under cv::contourArea. -/
theorem contourArea_demo : contourArea demoContour = 891 := by
  rw [contourArea, shoelace_demo]
  norm_num

/-- Helper: bounding rectangle of the demo contour. -/
theorem boundingRect_demo : boundingRect demoContour = ⟨0, 0, 100, 10⟩ := rfl

/-- Helper: the demo contour survives every filter of
findFrameCandidates for any parameters with the default area and aspect
bounds, over the 100x20 demo mask's area. -/
theorem findFrameCandidates_demo (p : DetectionParams)
    (h1 : p.minFrameAreaRatio = 5/100) (h2 : p.maxFrameAreaRatio = 95/100)
    (h3 : p.minAspectRatio = 3/2) (h4 : p.maxAspectRatio = 10) :
    findFrameCandidates p demoDetOracle [demoContour]
      ((demoBinary.cols * demoBinary.rows : Nat) : ℚ) = [demoContour] := by
  rw [show (demoBinary.cols * demoBinary.rows : Nat) = 2000 from rfl]
  simp only [findFrameCandidates, List.filterMap_cons, List.filterMap_nil]
  rw [contourArea_demo, h1, h2]
  rw [if_neg (by norm_num)]
  simp only [demoDetOracle, boundingRect_demo]
  rw [if_neg (by decide)]
  rw [h3, h4]
  rw [if_neg (by norm_num)]

/-- Helper: the selection fold picks the demo contour with its area. -/
theorem selectMaxArea_demo : selectMaxArea [demoContour] = (891, demoContour) := by
  simp only [selectMaxArea, List.foldl_cons, List.foldl_nil, contourArea_demo]
  rw [if_pos (by norm_num)]

/-- Helper: the demo best pair under default parameters. -/
theorem bestOf_demo : bestOf {} demoDetOracle demoBinary = (891, demoContour) := by
  rw [bestOf, candidatesOf, show demoDetOracle.findContours demoBinary = [demoContour] from rfl,
    findFrameCandidates_demo {} rfl rfl rfl rfl, selectMaxArea_demo]

/-- C2 witness: the confidence characterization instantiated on the
demo mask, whose single contour survives and is selected. -/
theorem detectFrame_confidence_witness :
    (demoBinary.isEmpty = false ∧ (bestOf {} demoDetOracle demoBinary).2 ≠ []) ∧
    ((detectFrame {} demoDetOracle demoBinary demoBinary demoBinary).detected = true ∧
      (detectFrame {} demoDetOracle demoBinary demoBinary demoBinary).confidence =
        (if ({} : DetectionParams).minAspectRatio ≤
              aspectOf (bestOf {} demoDetOracle demoBinary).2 ∧
            aspectOf (bestOf {} demoDetOracle demoBinary).2 ≤
              ({} : DetectionParams).maxAspectRatio then
          min 1 ((bestOf {} demoDetOracle demoBinary).1 /
            ((demoBinary.cols * demoBinary.rows : Nat) : ℚ) * 5)
        else
          (bestOf {} demoDetOracle demoBinary).1 /
            ((demoBinary.cols * demoBinary.rows : Nat) : ℚ) * (1/2))) :=
  ⟨⟨rfl, by rw [bestOf_demo]; exact fun h => List.noConfusion h⟩,
    (detectFrame_confidence {} demoDetOracle demoBinary demoBinary demoBinary).2 rfl
      (by rw [bestOf_demo]; exact fun h => List.noConfusion h)⟩

/-! Claim C6. -/

/-- Helper: looking up a position inside the written range. -/
theorem writeRange_apply_in (buf : Nat → ℚ) (base len : Nat) (vals : Nat → ℚ)
    (idx : Nat) (h1 : base ≤ idx) (h2 : idx < base + len) :
    writeRange buf base len vals idx = vals (idx - base) := by
  unfold writeRange
  rw [if_pos ⟨h1, h2⟩]

/-- Helper: looking up a position outside the written range. -/
theorem writeRange_apply_out (buf : Nat → ℚ) (base len : Nat) (vals : Nat → ℚ)
    (idx : Nat) (h : ¬(base ≤ idx ∧ idx < base + len)) :
    writeRange buf base len vals idx = buf idx := by
  unfold writeRange
  rw [if_neg h]

/-- Helper: a channel-major flat index stays inside the buffer. -/
theorem flatIdx_lt (s c y x : Nat) (hc : c < 3) (hy : y < s) (hx : x < s) :
    c * (s * s) + (y * s + x) < 3 * s * s := by
  have hyx : y * s + x < s * s := by
    calc y * s + x < y * s + s := by omega
    _ = (y + 1) * s := by ring
    _ ≤ s * s := Nat.mul_le_mul_right s hy
  have h1 : c * (s * s) + (y * s + x) < (c + 1) * (s * s) := by
    rw [add_mul, one_mul]
    omega
  have h2 : (c + 1) * (s * s) ≤ 3 * (s * s) := Nat.mul_le_mul_right _ (by omega)
  calc c * (s * s) + (y * s + x) < (c + 1) * (s * s) := h1
  _ ≤ 3 * (s * s) := h2
  _ = 3 * s * s := by ring

/-- Helper: recovering (c, y, x) from a channel-major flat index. -/
theorem flatIdx_decomp (s c y x : Nat) (hy : y < s) (hx : x < s) :
    (c * (s * s) + (y * s + x)) / (s * s) = c ∧
    ((c * (s * s) + (y * s + x)) % (s * s)) / s = y ∧
    (c * (s * s) + (y * s + x)) % s = x := by
  have hs : 0 < s := by omega
  have hyx : y * s + x < s * s := by
    calc y * s + x < y * s + s := by omega
    _ = (y + 1) * s := by ring
    _ ≤ s * s := Nat.mul_le_mul_right s hy
  refine ⟨?_, ?_, ?_⟩
  · rw [mul_comm c (s * s), Nat.mul_add_div (by positivity), Nat.div_eq_of_lt hyx, add_zero]
  · rw [mul_comm c (s * s), Nat.mul_add_mod, Nat.mod_eq_of_lt hyx,
      mul_comm y s, Nat.mul_add_div hs, Nat.div_eq_of_lt hx, add_zero]
  · rw [show c * (s * s) + (y * s + x) = s * (c * s + y) + x by ring, Nat.mul_add_mod,
      Nat.mod_eq_of_lt hx]

/-- C6 counterexample: on a uniform mid-gray 50x50 3-channel cell the
tensor elements equal ((128/255) - mean[c]) / std[c], which differs from
the claimed (0.5 - mean[c]) / std[c]: no 8-bit gray value divided by 255
is exactly one half.  The element at flat index 0 (channel 0, pixel
(0,0)) witnesses the difference for the red channel. -/
theorem convertCell_midgray_not_half :
    ((convertCell {} nearestResize grayCell {}).2.data.getD (fun _ => 0)) 0 =
      ((128 : ℚ) / 255 - 485/1000) / (229/1000) ∧
    ((128 : ℚ) / 255 - 485/1000) / (229/1000) ≠
      ((1/2 : ℚ) - 485/1000) / (229/1000) := by
  constructor
  · simp [convertCell, grayCell, nearestResize, Image.isEmpty, cvtToRGB, resizeImage,
      writeRange, normalizeFun, PreprocessingConfig.mean, PreprocessingConfig.std]
  · norm_num

/-- C6 (amended): for every non-empty input cell with 1 or 3 channels
and a positive configured cell size S, convertCell succeeds with a
3 x S x S channel-major tensor whose element at flat index
c*S*S + y*S + x equals (pixel/255 - mean[c]) / std[c] for the
RGB-ordered resized pixel at (y, x); in particular a uniform mid-gray
50x50 3-channel cell (gray byte 128) yields elements
((128/255) - mean[c]) / std[c] — approximately, but not exactly,
((0.5) - mean[c]) / std[c]. -/
theorem convertCell_normalized (cfg : PreprocessingConfig) (o : ResizeOracle)
    (cell : Image) (t : CellTensor)
    (hne : cell.isEmpty = false)
    (hch : cell.channels = 3 ∨ cell.channels = 1)
    (hs : 0 < cfg.cellOutputSize) :
    (convertCell cfg o cell t).1 = VisionError.None ∧
    (convertCell cfg o cell t).2.channels = 3 ∧
    (convertCell cfg o cell t).2.height = (cfg.cellOutputSize : Int) ∧
    (convertCell cfg o cell t).2.width = (cfg.cellOutputSize : Int) ∧
    ∃ rgb f, cvtToRGB (resizeImage o cell cfg.cellOutputSize) = some rgb ∧
      (convertCell cfg o cell t).2.data = some f ∧
      ∀ c y x, c < 3 → y < cfg.cellOutputSize → x < cfg.cellOutputSize →
        f (c * (cfg.cellOutputSize * cfg.cellOutputSize) + (y * cfg.cellOutputSize + x)) =
          ((rgb.pix y x c : ℚ) / 255 - cfg.mean c) / cfg.std c := by
  obtain ⟨rgb, hrgb, hrows, hcols⟩ :
      ∃ rgb, cvtToRGB (resizeImage o cell cfg.cellOutputSize) = some rgb ∧
        rgb.rows = cfg.cellOutputSize ∧ rgb.cols = cfg.cellOutputSize := by
    rcases hch with h | h
    · exact ⟨Image.mk cfg.cellOutputSize cfg.cellOutputSize 3
        (fun y x c => o.resizePix cell cfg.cellOutputSize y x (2 - c)),
        by simp [cvtToRGB, resizeImage, h], rfl, rfl⟩
    · exact ⟨Image.mk cfg.cellOutputSize cfg.cellOutputSize 3
        (fun y x _ => o.resizePix cell cfg.cellOutputSize y x 0),
        by simp [cvtToRGB, resizeImage, h], rfl, rfl⟩
  have hcc : convertCell cfg o cell t =
      (VisionError.None,
        { t with
          channels := 3, height := (cfg.cellOutputSize : Int),
          width := (cfg.cellOutputSize : Int),
          data := some (writeRange (fun _ => 0)
            0 (3 * cfg.cellOutputSize * cfg.cellOutputSize) (normalizeFun cfg rgb)) }) := by
    unfold convertCell
    rw [if_neg (by rw [hne]; exact Bool.false_ne_true), if_neg (by omega), hrgb]
  rw [hcc]
  refine ⟨rfl, rfl, rfl, rfl, rgb, _, hrgb, rfl, ?_⟩
  intro c y x hc hy hx
  have hlt : c * (cfg.cellOutputSize * cfg.cellOutputSize) + (y * cfg.cellOutputSize + x) <
      3 * cfg.cellOutputSize * cfg.cellOutputSize := flatIdx_lt _ _ _ _ hc hy hx
  have hd := flatIdx_decomp cfg.cellOutputSize c y x hy hx
  rw [writeRange_apply_in _ _ _ _ _ (Nat.zero_le _) (by rw [Nat.zero_add]; exact hlt),
    Nat.sub_zero]
  unfold normalizeFun
  rw [hrows, hcols, hd.1, hd.2.1, hd.2.2]

/-- C6 witness: the amended statement instantiated at the uniform
mid-gray 50x50 3-channel cell with the default configuration and the
nearest-neighbour resize oracle. -/
theorem convertCell_normalized_witness :
    (grayCell.isEmpty = false ∧ (grayCell.channels = 3 ∨ grayCell.channels = 1) ∧
      0 < ({} : PreprocessingConfig).cellOutputSize) ∧
    ((convertCell {} nearestResize grayCell {}).1 = VisionError.None ∧
      (convertCell {} nearestResize grayCell {}).2.channels = 3 ∧
      (convertCell {} nearestResize grayCell {}).2.height =
        (({} : PreprocessingConfig).cellOutputSize : Int) ∧
      (convertCell {} nearestResize grayCell {}).2.width =
        (({} : PreprocessingConfig).cellOutputSize : Int) ∧
      ∃ rgb f, cvtToRGB (resizeImage nearestResize grayCell
          ({} : PreprocessingConfig).cellOutputSize) = some rgb ∧
        (convertCell {} nearestResize grayCell {}).2.data = some f ∧
        ∀ c y x, c < 3 → y < ({} : PreprocessingConfig).cellOutputSize →
          x < ({} : PreprocessingConfig).cellOutputSize →
          f (c * (({} : PreprocessingConfig).cellOutputSize *
                ({} : PreprocessingConfig).cellOutputSize) +
              (y * ({} : PreprocessingConfig).cellOutputSize + x)) =
            ((rgb.pix y x c : ℚ) / 255 - ({} : PreprocessingConfig).mean c) /
              ({} : PreprocessingConfig).std c) :=
  ⟨⟨rfl, Or.inl rfl, by decide⟩,
    convertCell_normalized {} nearestResize grayCell {} rfl (Or.inl rfl) (by decide)⟩

/-! Claim C4. -/

/-- Helper: whenever the batch loop does not return None, it has deleted
the partially filled buffer and nulled the data pointer. -/
theorem convertBatchLoop_fail_data_none (cfg : PreprocessingConfig) (o : ResizeOracle) :
    ∀ (cells : List Image) (i cellSize : Nat) (batch : BatchTensor),
      (convertBatchLoop cfg o cells i cellSize batch).1 ≠ VisionError.None →
      (convertBatchLoop cfg o cells i cellSize batch).2.data = none := by
  intro cells
  induction cells with
  | nil =>
    intro i cellSize batch h
    exact absurd rfl h
  | cons cell rest ih =>
    intro i cellSize batch h
    by_cases hc : (cell.isEmpty = true ∨ cfg.cellOutputSize = 0)
    · simp only [convertBatchLoop, if_pos hc]
    · simp only [convertBatchLoop, if_neg hc] at h ⊢
      rcases hr : cvtToRGB (resizeImage o cell cfg.cellOutputSize) with _ | rgb
      · rfl
      · rw [hr] at h
        exact ih _ _ _ h

/-- Helper: the batch loop never touches the batchSize field. -/
theorem convertBatchLoop_batchSize (cfg : PreprocessingConfig) (o : ResizeOracle) :
    ∀ (cells : List Image) (i cellSize : Nat) (batch : BatchTensor),
      (convertBatchLoop cfg o cells i cellSize batch).2.batchSize = batch.batchSize := by
  intro cells
  induction cells with
  | nil => intro i cellSize batch; rfl
  | cons cell rest ih =>
    intro i cellSize batch
    by_cases hc : (cell.isEmpty = true ∨ cfg.cellOutputSize = 0)
    · simp only [convertBatchLoop, if_pos hc]
    · simp only [convertBatchLoop, if_neg hc]
      rcases hr : cvtToRGB (resizeImage o cell cfg.cellOutputSize) with _ | rgb
      · rfl
      · exact ih _ _ _

/-- Helper: on a non-empty cell list convertBatch sets batchSize to the
cell count, whatever else happens. -/
theorem convertBatch_batchSize (cfg : PreprocessingConfig) (o : ResizeOracle)
    (cells : List Image) (batch : BatchTensor) (hne : cells ≠ []) :
    (convertBatch cfg o cells batch).2.batchSize = (cells.length : Int) := by
  unfold convertBatch
  rw [if_neg (fun h => hne (List.isEmpty_iff.mp h))]
  rw [convertBatchLoop_batchSize]

/-- Helper: on a non-empty cell list, a convertBatch that did not return
None has released and nulled the buffer. -/
theorem convertBatch_fail_data_none (cfg : PreprocessingConfig) (o : ResizeOracle)
    (cells : List Image) (batch : BatchTensor) (hne : cells ≠ [])
    (h : (convertBatch cfg o cells batch).1 ≠ VisionError.None) :
    (convertBatch cfg o cells batch).2.data = none := by
  unfold convertBatch at h ⊢
  rw [if_neg (fun hh => hne (List.isEmpty_iff.mp hh))] at h ⊢
  exact convertBatchLoop_fail_data_none cfg o cells 0 _ _ h

/-- Helper: finishBatch on a result holding no buffer either succeeds or
leaves a null buffer, and it never touches frame, lanes or totalCells. -/
theorem finishBatch_success_or_null (cfg : PreprocessingConfig) (rsz : ResizeOracle)
    (allCells : List Image) (r3 : ExtractionResult) :
    (finishBatch cfg rsz allCells r3).success = true ∨
    (finishBatch cfg rsz allCells r3).tensor.data = none := by
  unfold finishBatch
  split
  · exact Or.inl rfl
  · rename_i hcells
    have hne : allCells ≠ [] := by
      intro hnil
      rw [hnil] at hcells
      exact hcells rfl
    rcases hcb : convertBatch cfg rsz allCells r3.tensor with ⟨err, b⟩
    have h2 : (convertBatch cfg rsz allCells r3.tensor).2 = b := by rw [hcb]
    have h1 : (convertBatch cfg rsz allCells r3.tensor).1 = err := by rw [hcb]
    cases err
    · exact Or.inl rfl
    all_goals
      refine Or.inr ?_
      show b.data = none
      rw [← h2]
      exact convertBatch_fail_data_none cfg rsz allCells r3.tensor hne
        (by rw [h1]; intro hx; exact VisionError.noConfusion hx)

/-- Helper: every result of processInternal either succeeded or carries
a null tensor buffer (the fresh result's default tensor on the early
paths, the aborted batch's nulled buffer on the conversion path). -/
theorem processInternal_success_or_null (cfg : PreprocessingConfig)
    (p : DetectionParams) (vo : VisionOracle) (img : Image) :
    (processInternal cfg p vo img).success = true ∨
    (processInternal cfg p vo img).tensor.data = none := by
  unfold processInternal
  split
  · exact Or.inr rfl
  · split
    · exact Or.inr rfl
    · rename_i pre binary edges
      unfold processAfterPreprocess
      split
      · exact Or.inr rfl
      · unfold processAfterDetect
        split
        · exact Or.inr rfl
        · unfold processAfterWarp
          split
          · exact Or.inr rfl
          · unfold processLanes
            exact finishBatch_success_or_null cfg vo.rsz _ _

/-- C4: for every non-empty cell list, if convertBatch does not succeed
then the whole batch was aborted and the partially filled buffer
released (data is null on return), so no partial batch is ever
returned; correspondingly a failed orchestrator frame has success false
and carries no partial tensor (its tensor buffer is null). -/
theorem convertBatch_no_partial (cfg : PreprocessingConfig) (o : ResizeOracle)
    (cells : List Image) (batch : BatchTensor) (hne : cells ≠ []) :
    ((convertBatch cfg o cells batch).1 ≠ VisionError.None →
      (convertBatch cfg o cells batch).2.data = none) ∧
    ∀ (p : DetectionParams) (vo : VisionOracle) (img : Image),
      (processInternal cfg p vo img).success = false →
      (processInternal cfg p vo img).tensor.data = none := by
  refine ⟨convertBatch_fail_data_none cfg o cells batch hne, ?_⟩
  intro p vo img hs
  rcases processInternal_success_or_null cfg p vo img with h | h
  · rw [hs] at h
    exact Bool.noConfusion h
  · exact h

/-- C4 witness: instantiated at a two-cell batch whose second cell has
an unsupported channel count, with a fresh batch tensor. -/
theorem convertBatch_no_partial_witness :
    ([grayCell, badCell] ≠ ([] : List Image)) ∧
    (((convertBatch {} nearestResize [grayCell, badCell] {}).1 ≠ VisionError.None →
      (convertBatch {} nearestResize [grayCell, badCell] {}).2.data = none) ∧
    ∀ (p : DetectionParams) (vo : VisionOracle) (img : Image),
      (processInternal {} p vo img).success = false →
      (processInternal {} p vo img).tensor.data = none) :=
  ⟨List.cons_ne_nil _ _,
    convertBatch_no_partial {} nearestResize [grayCell, badCell] {} (List.cons_ne_nil _ _)⟩

/-! Claim C1. -/

/-- A concrete oracle bundle: preprocessing is the identity triple, the
detector sees the demo contour, resizing is nearest-neighbour. -/
def demoVisionOracle : VisionOracle :=
  { preprocess := fun img => some (img, img, img),
    det := demoDetOracle,
    rsz := nearestResize }

/-- Helper: a crop with non-zero width and height is non-empty. -/
theorem cropROI_isEmpty_false (img : Image) (x y w h : Nat)
    (hw : w ≠ 0) (hh : h ≠ 0) :
    (cropROI img x y w h).isEmpty = false := by
  simp [cropROI, Image.isEmpty, hw, hh]

/-- Helper: extractCells always returns exactly 5 crops of a non-empty
lane (one upper bead, four lower beads). -/
theorem extractCells_length (p : DetectionParams) (lane : Image)
    (h : lane.isEmpty = false) :
    (extractCells p lane).length = 5 := by
  unfold extractCells
  rw [if_neg (by rw [h]; exact Bool.false_ne_true)]
  rfl

/-- Helper: the C++ float-to-int cast is the identity on whole numbers
coming from Nat. -/
theorem cppTrunc_natCast (n : Nat) : cppTrunc ((n : Nat) : ℚ) = (n : Int) := by
  unfold cppTrunc
  rw [Rat.num_natCast, Rat.den_natCast]
  simp

/-- Helper: every lane produced by extractLanes has the common strip
width cols/laneCount and the full image height in its bounding box. -/
theorem extractLanes_mem_box (warped : Image) (laneCount : Int)
    (lane : LaneInfo) (hmem : lane ∈ extractLanes warped laneCount) :
    lane.boundingBox.width = ((warped.cols / laneCount.toNat : Nat) : ℚ) ∧
    lane.boundingBox.height = ((warped.rows : Nat) : ℚ) := by
  unfold extractLanes at hmem
  by_cases hc : (warped.isEmpty = true ∨ laneCount ≤ 0)
  · rw [if_pos hc] at hmem
    exact absurd hmem (List.not_mem_nil _)
  · rw [if_neg hc] at hmem
    obtain ⟨i, hi, rfl⟩ := List.mem_map.mp hmem
    exact ⟨rfl, rfl⟩

/-- Helper: when every lane's strip crop is non-empty, gatherCells
collects exactly 5 cells per lane. -/
theorem gatherCells_length_of_nonempty (p : DetectionParams) (warped : Image) :
    ∀ lanes : List LaneInfo,
      (∀ lane ∈ lanes,
        (cppTrunc lane.boundingBox.width).toNat ≠ 0 ∧
        (cppTrunc lane.boundingBox.height).toNat ≠ 0) →
      (gatherCells p warped lanes).length = 5 * lanes.length := by
  intro lanes
  induction lanes with
  | nil => intro _; rfl
  | cons lane rest ih =>
    intro h
    have hl := h lane (List.mem_cons_self _ _)
    unfold gatherCells
    rw [List.length_append,
      extractCells_length p _ (cropROI_isEmpty_false _ _ _ _ _ hl.1 hl.2),
      ih (fun l hm => h l (List.mem_cons_of_mem _ hm))]
    simp [List.length_cons]
    ring

/-- Helper: a detected lane count never exceeds 800 when both clamp
bounds are at most 800 (the warped width). -/
theorem detectLaneCount_le_800 (p : DetectionParams) (o : DetectorOracle)
    (warped : Image) (hmin : p.minLaneCount ≤ 800) (hmax : p.maxLaneCount ≤ 800) :
    detectLaneCount p o warped ≤ 800 := by
  unfold detectLaneCount
  split
  · norm_num
  · exact max_le hmin (le_trans (min_le_left _ _) hmax)

/-- Helper: a non-empty warp has the requested output dimensions. -/
theorem warpFrame_dims (o : DetectorOracle) (original : Image)
    (frame : FrameDetectionResult) (w h : Nat)
    (hne : (warpFrame o original frame w h).isEmpty = false) :
    (warpFrame o original frame w h).cols = w ∧
    (warpFrame o original frame w h).rows = h := by
  unfold warpFrame at hne ⊢
  by_cases hc : (frame.detected = false ∨ original.isEmpty = true)
  · rw [if_pos hc] at hne
    exact absurd hne (by simp [emptyImage, Image.isEmpty])
  · rw [if_neg hc]
    exact ⟨rfl, rfl⟩

/-- Helper: finishBatch invariants on the success path — the lane list
and cell count are preserved and the converted tensor's batchSize is the
cell count. -/
theorem finishBatch_counts (cfg : PreprocessingConfig) (rsz : ResizeOracle)
    (allCells : List Image) (r3 : ExtractionResult)
    (hsucc : r3.success = false)
    (hlen : allCells.length = 5 * r3.lanes.length)
    (htc : r3.totalCells = (allCells.length : Int))
    (hne : allCells ≠ []) :
    (finishBatch cfg rsz allCells r3).success = true →
    (finishBatch cfg rsz allCells r3).totalCells =
      (((finishBatch cfg rsz allCells r3).lanes.length : Int)) * 5 ∧
    (finishBatch cfg rsz allCells r3).tensor.batchSize =
      (finishBatch cfg rsz allCells r3).totalCells := by
  unfold finishBatch
  rw [if_neg (fun hh => hne (List.isEmpty_iff.mp hh))]
  rcases hcb : convertBatch cfg rsz allCells r3.tensor with ⟨err, b⟩
  have h2 : (convertBatch cfg rsz allCells r3.tensor).2 = b := by rw [hcb]
  cases err
  · intro _
    constructor
    · show r3.totalCells = ((r3.lanes.length : Int)) * 5
      rw [htc, hlen]
      push_cast
      ring
    · show b.batchSize = r3.totalCells
      rw [← h2, convertBatch_batchSize cfg rsz allCells r3.tensor hne, htc]
  all_goals
    intro hs
    have hs2 : r3.success = true := hs
    rw [hsucc] at hs2
    exact Bool.noConfusion hs2

/-- Helper: the lane stage satisfies the cell-count invariants whenever
the warp has the standard 800x200 shape and the lane count is in
(0, 800]. -/
theorem processLanes_counts (cfg : PreprocessingConfig) (p : DetectionParams)
    (o : VisionOracle) (frame2 : FrameDetectionResult) (warped : Image)
    (laneCount : Int) (hw8 : warped.cols = 800) (hw2 : warped.rows = 200)
    (hpos : 0 < laneCount) (h800 : laneCount ≤ 800) :
    (processLanes cfg p o frame2 warped laneCount).success = true →
    (processLanes cfg p o frame2 warped laneCount).totalCells =
      (((processLanes cfg p o frame2 warped laneCount).lanes.length : Int)) * 5 ∧
    (processLanes cfg p o frame2 warped laneCount).tensor.batchSize =
      (processLanes cfg p o frame2 warped laneCount).totalCells := by
  have hne : warped.isEmpty = false := by
    simp [Image.isEmpty, hw8, hw2]
  have hlw : 0 < warped.cols / laneCount.toNat := by
    rw [hw8]
    exact Nat.div_pos (by omega) (by omega)
  have hbox : ∀ lane ∈ extractLanes warped laneCount,
      (cppTrunc lane.boundingBox.width).toNat ≠ 0 ∧
      (cppTrunc lane.boundingBox.height).toNat ≠ 0 := by
    intro lane hmem
    obtain ⟨hbw, hbh⟩ := extractLanes_mem_box warped laneCount lane hmem
    constructor
    · rw [hbw, cppTrunc_natCast, Int.toNat_natCast]
      omega
    · rw [hbh, cppTrunc_natCast, Int.toNat_natCast]
      omega
  have hglen : (gatherCells p warped (extractLanes warped laneCount)).length =
      5 * laneCount.toNat := by
    rw [gatherCells_length_of_nonempty p warped _ hbox,
      extractLanes_length warped laneCount hne hpos]
  have hgne : gatherCells p warped (extractLanes warped laneCount) ≠ [] := by
    intro hnil
    rw [hnil] at hglen
    simp at hglen
    omega
  unfold processLanes
  exact finishBatch_counts cfg o.rsz
    (gatherCells p warped (extractLanes warped laneCount))
    { frame := frame2, lanes := extractLanes warped laneCount,
      totalCells := ((gatherCells p warped (extractLanes warped laneCount)).length : Int) }
    rfl
    (by
      show (gatherCells p warped (extractLanes warped laneCount)).length =
        5 * (extractLanes warped laneCount).length
      rw [hglen, extractLanes_length warped laneCount hne hpos])
    rfl
    hgne

/-- Helper: finishBatch on a fresh-result tail (success still false,
zero batchSize, totalCells already stamped with the cell count) leaves
tensor.batchSize equal to totalCells whenever it reports success — both
when the cell list is empty (the conversion is skipped, both stay 0)
and when convertBatch succeeds (batchSize is set to the cell count). -/
theorem finishBatch_batchSize (cfg : PreprocessingConfig) (rsz : ResizeOracle)
    (allCells : List Image) (r3 : ExtractionResult)
    (hsucc : r3.success = false)
    (hbs : r3.tensor.batchSize = 0)
    (htc : r3.totalCells = (allCells.length : Int)) :
    (finishBatch cfg rsz allCells r3).success = true →
    (finishBatch cfg rsz allCells r3).tensor.batchSize =
      (finishBatch cfg rsz allCells r3).totalCells := by
  unfold finishBatch
  split
  · rename_i hempty
    intro _
    show r3.tensor.batchSize = r3.totalCells
    rw [hbs, htc, List.isEmpty_iff.mp hempty]
    rfl
  · rename_i hempty
    have hne : allCells ≠ [] := fun hnil => hempty (by rw [hnil]; rfl)
    rcases hcb : convertBatch cfg rsz allCells r3.tensor with ⟨err, b⟩
    have h2 : (convertBatch cfg rsz allCells r3.tensor).2 = b := by rw [hcb]
    cases err
    · intro _
      show b.batchSize = r3.totalCells
      rw [← h2, convertBatch_batchSize cfg rsz allCells r3.tensor hne, htc]
    all_goals
      intro hs
      have hs2 : r3.success = true := hs
      rw [hsucc] at hs2
      exact Bool.noConfusion hs2

/-- Helper: the lane stage's result satisfies batchSize = totalCells on
success, with no shape or parameter assumption at all. -/
theorem processLanes_batchSize (cfg : PreprocessingConfig) (p : DetectionParams)
    (o : VisionOracle) (frame2 : FrameDetectionResult) (warped : Image)
    (laneCount : Int) :
    (processLanes cfg p o frame2 warped laneCount).success = true →
    (processLanes cfg p o frame2 warped laneCount).tensor.batchSize =
      (processLanes cfg p o frame2 warped laneCount).totalCells := by
  unfold processLanes
  exact finishBatch_batchSize cfg o.rsz _ _ rfl rfl rfl

/-- Helper: every successful processInternal result has
tensor.batchSize = totalCells, for every configuration and parameter
setting (the early failure returns are excluded by success, and the
lane stage guarantees it unconditionally). -/
theorem processInternal_batchSize (cfg : PreprocessingConfig)
    (p : DetectionParams) (vo : VisionOracle) (img : Image) :
    (processInternal cfg p vo img).success = true →
    (processInternal cfg p vo img).tensor.batchSize =
      (processInternal cfg p vo img).totalCells := by
  unfold processInternal
  split
  · intro hs
    exact Bool.noConfusion hs
  · split
    · intro hs
      exact Bool.noConfusion hs
    · unfold processAfterPreprocess
      split
      · intro hs
        exact Bool.noConfusion hs
      · unfold processAfterDetect
        split
        · intro hs
          exact Bool.noConfusion hs
        · unfold processAfterWarp
          split
          · intro hs
            exact Bool.noConfusion hs
          · unfold processLanes
            exact finishBatch_batchSize cfg vo.rsz _ _ rfl rfl rfl

/-- Helper: under lane-count bounds of at most 800 both counting
invariants hold on success (used for the bounded half of C1). -/
theorem processInternal_counts_of_bounds (cfg : PreprocessingConfig)
    (p : DetectionParams) (vo : VisionOracle) (img : Image)
    (hmin : p.minLaneCount ≤ 800) (hmax : p.maxLaneCount ≤ 800) :
    (processInternal cfg p vo img).success = true →
    (processInternal cfg p vo img).totalCells =
      (((processInternal cfg p vo img).lanes.length : Int)) * 5 ∧
    (processInternal cfg p vo img).tensor.batchSize =
      (processInternal cfg p vo img).totalCells := by
  unfold processInternal
  split
  · intro hs
    exact Bool.noConfusion hs
  · split
    · intro hs
      exact Bool.noConfusion hs
    · rename_i pre binary edges heq
      unfold processAfterPreprocess
      split
      · intro hs
        exact Bool.noConfusion hs
      · unfold processAfterDetect
        split
        · intro hs
          exact Bool.noConfusion hs
        · rename_i hwne
          have hwne' : (warpFrame vo.det pre
              (detectFrame p vo.det pre binary edges) 800 200).isEmpty = false := by
            cases hx : (warpFrame vo.det pre
                (detectFrame p vo.det pre binary edges) 800 200).isEmpty
            · rfl
            · exact absurd hx hwne
          obtain ⟨hc8, hr2⟩ := warpFrame_dims vo.det pre
            (detectFrame p vo.det pre binary edges) 800 200 hwne'
          unfold processAfterWarp
          split
          · intro hs
            exact Bool.noConfusion hs
          · rename_i hpos
            exact processLanes_counts cfg p vo _ _ _ hc8 hr2 (by omega)
              (detectLaneCount_le_800 p vo.det _ hmin hmax)

/-- Detection parameters equal to the defaults except for an absurdly
large minimum lane count, which the clamp silently enforces. -/
def hugeMinParams : DetectionParams := { minLaneCount := 5000 }

/-- Helper: when maxLaneCount ≤ minLaneCount, the clamp forces the lane
count of any non-empty frame to minLaneCount regardless of the peaks. -/
theorem detectLaneCount_min_dominates (p : DetectionParams) (o : DetectorOracle)
    (warped : Image) (hne : warped.isEmpty = false)
    (hdom : p.maxLaneCount ≤ p.minLaneCount) :
    detectLaneCount p o warped = p.minLaneCount := by
  unfold detectLaneCount
  rw [if_neg (by rw [hne]; exact Bool.false_ne_true)]
  exact max_eq_left (le_trans (min_le_left _ _) hdom)

/-- Helper: a zero-width crop is an empty cv::Mat. -/
theorem cropROI_zero_width_isEmpty (img : Image) (x y h : Nat) :
    (cropROI img x y 0 h).isEmpty = true := by
  simp [cropROI, Image.isEmpty]

/-- Helper: lanes whose strips have zero integer width contribute no
cells at all. -/
theorem gatherCells_nil_of_zero_width (p : DetectionParams) (warped : Image) :
    ∀ lanes : List LaneInfo,
      (∀ lane ∈ lanes, (cppTrunc lane.boundingBox.width).toNat = 0) →
      gatherCells p warped lanes = [] := by
  intro lanes
  induction lanes with
  | nil => intro _; rfl
  | cons lane rest ih =>
    intro h
    have hl := h lane (List.mem_cons_self _ _)
    unfold gatherCells
    rw [hl]
    have hempty : extractCells p (cropROI warped
        (cppTrunc lane.boundingBox.x).toNat (cppTrunc lane.boundingBox.y).toNat 0
        (cppTrunc lane.boundingBox.height).toNat) = [] := by
      unfold extractCells
      rw [if_pos (cropROI_zero_width_isEmpty _ _ _ _)]
    rw [hempty, ih (fun l hm => h l (List.mem_cons_of_mem _ hm))]
    rfl

/-- The frame the detector reports on the demo mask under the huge
minimum-lane-count parameters. -/
def demoFrameHuge : FrameDetectionResult :=
  detectFrame hugeMinParams demoDetOracle demoBinary demoBinary demoBinary

/-- The 800x200 warp of the demo mask for that frame. -/
def demoWarpHuge : Image :=
  warpFrame demoDetOracle demoBinary demoFrameHuge 800 200

/-- Helper: the demo frame is detected under hugeMinParams (its area and
aspect bounds are the defaults). -/
theorem demoFrameHuge_detected : demoFrameHuge.detected = true := by
  have hc : candidatesOf hugeMinParams demoDetOracle demoBinary = [demoContour] := by
    rw [candidatesOf, show demoDetOracle.findContours demoBinary = [demoContour] from rfl,
      findFrameCandidates_demo hugeMinParams rfl rfl rfl rfl]
  have hbst : bestOf hugeMinParams demoDetOracle demoBinary = (891, demoContour) := by
    rw [bestOf, hc, selectMaxArea_demo]
  unfold demoFrameHuge
  rw [detectFrame_nonempty_eq hugeMinParams demoDetOracle demoBinary demoBinary
    demoBinary rfl, hc, hbst]
  rfl

/-- Helper: the demo warp is a real 800x200 image. -/
theorem demoWarpHuge_isEmpty : demoWarpHuge.isEmpty = false := by
  unfold demoWarpHuge warpFrame
  rw [if_neg (by
    intro h
    rcases h with h | h
    · rw [demoFrameHuge_detected] at h
      exact Bool.noConfusion h
    · exact Bool.noConfusion h)]
  rfl

/-- Helper: the demo warp's width is the fixed 800 columns. -/
theorem demoWarpHuge_cols : demoWarpHuge.cols = 800 :=
  (warpFrame_dims demoDetOracle demoBinary demoFrameHuge 800 200 demoWarpHuge_isEmpty).1

/-- Helper: the clamp forces the lane count to 5000 on the demo warp. -/
theorem demoLaneCountHuge :
    detectLaneCount hugeMinParams demoDetOracle demoWarpHuge = 5000 :=
  detectLaneCount_min_dominates hugeMinParams demoDetOracle demoWarpHuge
    demoWarpHuge_isEmpty (by decide)

/-- Helper: all 5000 lane strips have integer width 800/5000 = 0. -/
theorem demoLanesHuge_zero_width :
    ∀ lane ∈ extractLanes demoWarpHuge 5000,
      (cppTrunc lane.boundingBox.width).toNat = 0 := by
  intro lane hmem
  obtain ⟨hbw, _⟩ := extractLanes_mem_box demoWarpHuge 5000 lane hmem
  rw [hbw, cppTrunc_natCast, Int.toNat_natCast, demoWarpHuge_cols]
  decide

/-- Helper: no cells at all are gathered from the zero-width strips. -/
theorem demoCellsHuge :
    gatherCells hugeMinParams demoWarpHuge (extractLanes demoWarpHuge 5000) = [] :=
  gatherCells_nil_of_zero_width hugeMinParams demoWarpHuge _ demoLanesHuge_zero_width

/-- Helper: there are exactly 5000 lanes. -/
theorem demoLanesHuge_length : (extractLanes demoWarpHuge 5000).length = 5000 :=
  (extractLanes_length demoWarpHuge 5000 demoWarpHuge_isEmpty (by decide)).trans rfl

/-- C1 counterexample: with minLaneCount 5000 (all other parameters at
their defaults) the demo frame is detected, the clamp forces 5000
lanes whose strips have integer width 800/5000 = 0, every per-lane crop
is empty, no cells are gathered, and processInternal still returns
success true — with totalCells 0 while lanes.size() * 5 = 25000, so the
claimed invariant totalCells == lanes.size() * 5 fails on a successful
frame (its other half survives even here: tensor.batchSize is also 0,
equal to totalCells). -/
theorem processInternal_degenerate_counts :
    (processInternal {} hugeMinParams demoVisionOracle demoBinary).success = true ∧
    (processInternal {} hugeMinParams demoVisionOracle demoBinary).totalCells = 0 ∧
    (processInternal {} hugeMinParams demoVisionOracle demoBinary).tensor.batchSize = 0 ∧
    ((processInternal {} hugeMinParams demoVisionOracle demoBinary).lanes.length : Int)
      = 5000 ∧
    (0 : Int) ≠ 5000 * 5 := by
  have e1 : demoVisionOracle.det = demoDetOracle := rfl
  have h0 : processInternal {} hugeMinParams demoVisionOracle demoBinary =
      processAfterPreprocess {} hugeMinParams demoVisionOracle demoBinary demoBinary
        demoBinary := by
    unfold processInternal
    rw [if_neg (by intro hx; exact Bool.noConfusion hx)]
    rfl
  rw [h0]
  unfold processAfterPreprocess
  rw [e1]
  rw [show detectFrame hugeMinParams demoDetOracle demoBinary demoBinary demoBinary =
    demoFrameHuge from rfl]
  rw [if_neg (by
    intro h
    rw [demoFrameHuge_detected] at h
    exact Bool.noConfusion h)]
  unfold processAfterDetect
  rw [e1]
  rw [show warpFrame demoDetOracle demoBinary demoFrameHuge 800 200 = demoWarpHuge
    from rfl]
  rw [if_neg (by
    intro h
    rw [demoWarpHuge_isEmpty] at h
    exact Bool.noConfusion h)]
  unfold processAfterWarp
  rw [e1]
  rw [demoLaneCountHuge]
  rw [if_neg (by decide)]
  unfold processLanes
  rw [demoCellsHuge]
  unfold finishBatch
  rw [if_pos (show ([] : List Image).isEmpty = true from rfl)]
  refine ⟨rfl, rfl, rfl, ?_, by decide⟩
  show ((extractLanes demoWarpHuge 5000).length : Int) = 5000
  rw [demoLanesHuge_length]
  rfl

/-- C1 (amended): for every frame processed by the orchestrator, when
the returned ExtractionResult has success true, tensor.batchSize equals
totalCells unconditionally; and totalCells equals lanes.size() * 5
provided the configured lane-count bounds do not exceed 800 (the warped
width, so every lane strip is at least one pixel wide) — which holds in
particular for the default parameters. -/
theorem processInternal_success_invariant (cfg : PreprocessingConfig)
    (p : DetectionParams) (vo : VisionOracle) (img : Image) :
    ((processInternal cfg p vo img).success = true →
      (processInternal cfg p vo img).tensor.batchSize =
        (processInternal cfg p vo img).totalCells) ∧
    (p.minLaneCount ≤ 800 → p.maxLaneCount ≤ 800 →
      (processInternal cfg p vo img).success = true →
      (processInternal cfg p vo img).totalCells =
        (((processInternal cfg p vo img).lanes.length : Int)) * 5) :=
  ⟨processInternal_batchSize cfg p vo img,
    fun hmin hmax hs =>
      (processInternal_counts_of_bounds cfg p vo img hmin hmax hs).1⟩

/-- C1 witness: the invariant instantiated at the default configuration
and parameters on the demo oracle and mask; the bounds of the second
half are discharged for the defaults. -/
theorem processInternal_success_invariant_witness :
    (({} : DetectionParams).minLaneCount ≤ 800 ∧
      ({} : DetectionParams).maxLaneCount ≤ 800) ∧
    (((processInternal {} {} demoVisionOracle demoBinary).success = true →
      (processInternal {} {} demoVisionOracle demoBinary).tensor.batchSize =
        (processInternal {} {} demoVisionOracle demoBinary).totalCells) ∧
    ((processInternal {} {} demoVisionOracle demoBinary).success = true →
      (processInternal {} {} demoVisionOracle demoBinary).totalCells =
        (((processInternal {} {} demoVisionOracle demoBinary).lanes.length : Int)) * 5)) :=
  ⟨⟨by decide, by decide⟩,
    ⟨(processInternal_success_invariant {} {} demoVisionOracle demoBinary).1,
      (processInternal_success_invariant {} {} demoVisionOracle demoBinary).2
        (by decide) (by decide)⟩⟩

end abacus
